import Mathlib

/-!
# Gerber draw items: hit-testing, bounding box and the Locate search

A shallow embedding of `gerbview/class_gerber_draw_item.cpp` and
`gerbview/locate.cpp`.

* C++ `int` values are embedded as `Int`; the `wxPoint` operators, which
  compute on `int`, wrap around at 32 bits (`wrapInt`).
* `double` arithmetic on integer-valued operands is embedded by rounding the
  exact integer result to the nearest binary64 value (`roundToDouble`).
* Helpers whose code is not part of the embedded sources (`DistanceTest`,
  `EDA_Rect`) are either parameters of the embedded function or are modelled
  from the specification, and are marked as such.
-/

set_option autoImplicit false

/-! ## Machine arithmetic -/

/-- Two's-complement reduction of an integer to the range of a 32-bit `int`. -/
def wrapInt (v : Int) : Int :=
  (v + 2147483648) % 4294967296 - 2147483648

/-- The integer is a value of the 32-bit type `int`. -/
def isInt32 (n : Int) : Prop :=
  -2147483648 ≤ n ∧ n < 2147483648

instance (n : Int) : Decidable (isInt32 n) :=
  inferInstanceAs (Decidable (-2147483648 ≤ n ∧ n < 2147483648))

/-- Number of low-order bits that do not fit in a 53-bit significand: the
number of halvings needed to bring `a` below `2^53` (at most `fuel`). -/
def excessBits : Nat → Nat → Nat
  | 0, _ => 0
  | fuel + 1, a => if a < 9007199254740992 then 0 else 1 + excessBits fuel (a / 2)

/-- The integer `n` rounded to the nearest IEEE-754 binary64 value, ties to
even.  This is the result of a `double` operation whose exact result is the
integer `n` (for `|n| < 2^1024`, far beyond what 32-bit operands produce). -/
def roundToDouble (n : Int) : Int :=
  if n.natAbs < 9007199254740992 then n
  else
    let a := n.natAbs
    let e := excessBits 1024 a
    let q := a / 2 ^ e
    let r := a % 2 ^ e
    let h := 2 ^ (e - 1)
    let q' := if h < r ∨ (r = h ∧ q % 2 = 1) then q + 1 else q
    Int.sign n * ((q' * 2 ^ e : Nat) : Int)

/-- Modelled from the spec: the `MIN` macro (defined outside the embedded
sources), the smaller of its two arguments. -/
def MIN (a b : Int) : Int :=
  if a < b then a else b

/-! ## Data model -/

/-- A `wxPoint`: a pair of `int` coordinates. -/
structure wxPoint where
  x : Int
  y : Int
deriving DecidableEq, Repr

/-- A `wxSize`: a pair of `int` extents; its fields are named `x` and `y`. -/
structure wxSize where
  x : Int
  y : Int
deriving DecidableEq, Repr

/-- The `wxPoint` difference `p1 - p2`, computed component-wise on `int`. -/
def wxPoint.sub (p1 p2 : wxPoint) : wxPoint :=
  { x := wrapInt (p1.x - p2.x), y := wrapInt (p1.y - p2.y) }

/-- The `wxPoint` sum `p1 + p2` (also `p1 += p2`), computed component-wise on `int`. -/
def wxPoint.add (p1 p2 : wxPoint) : wxPoint :=
  { x := wrapInt (p1.x + p2.x), y := wrapInt (p1.y + p2.y) }

instance : Sub wxPoint := ⟨wxPoint.sub⟩

instance : Add wxPoint := ⟨wxPoint.add⟩

/-- The shape codes that `ShowGBRShape` distinguishes. -/
inductive Gbr_Basic_Shapes where
  | GBR_SEGMENT
  | GBR_ARC
  | GBR_CIRCLE
  | GBR_POLYGON
  | GBR_SPOT_CIRCLE
  | GBR_SPOT_RECT
  | GBR_SPOT_OVAL
  | GBR_SPOT_POLY
  | GBR_SPOT_MACRO
deriving DecidableEq, Repr

open Gbr_Basic_Shapes

/-- The data members of `GERBER_DRAW_ITEM` that the embedded code reads or
writes.  The default values are those of the constructor
`GERBER_DRAW_ITEM( BOARD_ITEM* aParent )`; points and sizes start at zero. -/
structure GERBER_DRAW_ITEM where
  m_Layer : Int := 0
  m_Shape : Gbr_Basic_Shapes := GBR_SEGMENT
  m_Flashed : Bool := false
  m_DCode : Int := 0
  m_UnitsMetric : Bool := false
  m_ImageNegative : Bool := false
  m_LayerNegative : Bool := false
  m_Start : wxPoint := { x := 0, y := 0 }
  m_End : wxPoint := { x := 0, y := 0 }
  m_ArcCentre : wxPoint := { x := 0, y := 0 }
  m_Size : wxSize := { x := 0, y := 0 }
  m_PolyCorners : List wxPoint := []
  m_Flags : Int := 0
  m_TimeStamp : Int := 0
  m_Status : Int := 0
deriving DecidableEq, Repr

/-! ## Hit-testing a point -/

/-- Embedding of `GERBER_DRAW_ITEM::HitTest( const wxPoint& ref_pos )`.
`DistanceTest` (from `trigo.h`) is not part of the embedded sources and is
taken as the parameter `distanceTest`. -/
def GERBER_DRAW_ITEM.HitTest (distanceTest : Int → Int → Int → Int → Int → Bool)
    (self : GERBER_DRAW_ITEM) (ref_pos : wxPoint) : Bool :=
  let radius : Int := MIN self.m_Size.x self.m_Size.y >>> (1 : Nat)
  let delta : wxPoint := self.m_End - self.m_Start
  let dist : wxPoint := ref_pos - self.m_Start
  if self.m_Flashed then
    decide (roundToDouble (roundToDouble (dist.x * dist.x) + roundToDouble (dist.y * dist.y))
      ≤ roundToDouble (radius * radius))
  else
    if distanceTest radius delta.x delta.y dist.x dist.y then true else false

/-- Exact squared Euclidean distance between two points. -/
def sqDist (a b : wxPoint) : Int :=
  (a.x - b.x) ^ 2 + (a.y - b.y) ^ 2

/-- Modelled from the spec: `DistanceTest( seuil, dx, dy, px, py )` (declared
in `trigo.h`, not part of the embedded sources).  The spec describes it as the
test that the perpendicular/clamped distance from the point `(px, py)` to the
segment from the origin to `(dx, dy)` is within the tolerance `seuil`; a
zero-length segment is treated as a point, without any division.  The
perpendicular case compares cross-multiplied squares instead of dividing. -/
def DistanceTest (seuil dx dy px py : Int) : Bool :=
  let len2 := dx * dx + dy * dy
  let dot := px * dx + py * dy
  if seuil < 0 then false
  else if len2 = 0 then decide (px * px + py * py ≤ seuil * seuil)
  else if dot ≤ 0 then decide (px * px + py * py ≤ seuil * seuil)
  else if len2 ≤ dot then
    decide ((px - dx) * (px - dx) + (py - dy) * (py - dy) ≤ seuil * seuil)
  else
    decide ((px * dy - py * dx) * (px * dy - py * dx) ≤ seuil * seuil * len2)

/-- Division of rationals that reports a zero divisor: `none` stands for a
division by zero. -/
def checkedDiv (a b : ℚ) : Option ℚ :=
  if b = 0 then none else some (a / b)

/-- Modelled from the spec: the test of `DistanceTest` computed as the spec words
it, with its division made explicit.  A zero-length segment is treated as a
point before anything is divided; otherwise the point is projected on the
line of the segment, which divides by the squared length, the projection is
clamped to the segment, and the distance from the point to the clamped
projection is compared with the tolerance.  The result is `none` if a division
by zero is performed. -/
def DistanceTestDiv (seuil dx dy px py : Int) : Option Bool :=
  if seuil < 0 then some false
  else if dx = 0 ∧ dy = 0 then some (decide (px * px + py * py ≤ seuil * seuil))
  else
    match checkedDiv ((px : ℚ) * dx + (py : ℚ) * dy) ((dx : ℚ) * dx + (dy : ℚ) * dy) with
    | none => none
    | some t =>
      let c : ℚ := max 0 (min 1 t)
      let nx : ℚ := (px : ℚ) - c * dx
      let ny : ℚ := (py : ℚ) - c * dy
      some (decide (nx * nx + ny * ny ≤ (seuil : ℚ) * seuil))

/-! ## Concrete items used in the scenarios -/

/-- Scenario D: a flashed spot circle of size `(20,20)` at the origin. -/
def spotD : GERBER_DRAW_ITEM :=
  { m_Shape := GBR_SPOT_CIRCLE, m_Flashed := true, m_Size := { x := 20, y := 20 } }

/-- A flashed spot whose `m_Size.y` is negative. -/
def spotNegative : GERBER_DRAW_ITEM :=
  { m_Shape := GBR_SPOT_OVAL, m_Flashed := true, m_Size := { x := 20, y := -20 } }

/-- A flashed spot of diameter `2^28`, radius `2^27`. -/
def spotHuge : GERBER_DRAW_ITEM :=
  { m_Shape := GBR_SPOT_CIRCLE, m_Flashed := true,
    m_Size := { x := 268435456, y := 268435456 } }


/-! ## The Locate search -/

/-- The result of `Locate`: a pointer to an item, identified by the graphic
layer whose image owns it and by its position in that image's items list. -/
structure ItemRef where
  layer : Int
  index : Nat
deriving DecidableEq, Repr

/-- What `GERBVIEW_FRAME::Locate` reads from the frame.  `GetGbrImage layer`
is `none` for a NULL image and otherwise the image's items list in list order;
`ImagesMaxCount` is the value of `(int)ImagesMaxCount()`. -/
structure GERBVIEW_FRAME where
  getActiveLayer : Int
  GetGbrImage : Int → Option (List GERBER_DRAW_ITEM)
  IsLayerVisible : Int → Bool
  ImagesMaxCount : Int
  GetNearestGridPosition : wxPoint → wxPoint

/-- The point `ref` of `Locate`: the position, moved to the nearest grid point
when `aTypeloc == CURSEUR_ON_GRILLE`. -/
def GERBVIEW_FRAME.refPosition (CURSEUR_ON_GRILLE : Int) (frame : GERBVIEW_FRAME)
    (aPosition : wxPoint) (aTypeloc : Int) : wxPoint :=
  if aTypeloc = CURSEUR_ON_GRILLE then frame.GetNearestGridPosition aPosition else aPosition

/-- The loop `for( gerb_item = gerber->GetItemsList(); gerb_item; gerb_item =
gerb_item->Next() )` with its `break` on the first hit: `some i` when the loop
leaves at the item in position `i` (counted from `pos`) with `found = true`,
`none` when it runs off the list (`gerb_item == NULL`, `found` still false). -/
def scanItemsList (hit : GERBER_DRAW_ITEM → Bool) : List GERBER_DRAW_ITEM → Nat → Option Nat
  | [], _ => none
  | gerb_item :: next, pos => if hit gerb_item then some pos else scanItemsList hit next (pos + 1)

/-- The loop `for( layer = 0; layer < (int)ImagesMaxCount(); ++layer )` of
`Locate`, started at `layer` with `remaining` iterations to go. -/
def scanAllLayers (frame : GERBVIEW_FRAME) (hit : GERBER_DRAW_ITEM → Bool) :
    Nat → Int → Option ItemRef
  | 0, _ => none
  | remaining + 1, layer =>
    match frame.GetGbrImage layer with
    | none => scanAllLayers frame hit remaining (layer + 1)
    | some items =>
      if !frame.IsLayerVisible layer then scanAllLayers frame hit remaining (layer + 1)
      else
        match scanItemsList hit items 0 with
        | some index => some { layer := layer, index := index }
        | none => scanAllLayers frame hit remaining (layer + 1)

/-- Embedding of `GERBVIEW_FRAME::Locate( const wxPoint& aPosition, int aTypeloc )`
(the message panel updates are left out).  `HitTest` is the item hit-test the
frame is compiled against, and `CURSEUR_ON_GRILLE` the value of that constant;
both are parameters.  The result is `none` for NULL. -/
def GERBVIEW_FRAME.Locate (HitTest : GERBER_DRAW_ITEM → wxPoint → Bool)
    (CURSEUR_ON_GRILLE : Int) (frame : GERBVIEW_FRAME)
    (aPosition : wxPoint) (aTypeloc : Int) : Option ItemRef :=
  let ref := frame.refPosition CURSEUR_ON_GRILLE aPosition aTypeloc
  let layer := frame.getActiveLayer
  let onActive : Option Nat :=
    match frame.GetGbrImage layer with
    | some items =>
      if frame.IsLayerVisible layer then scanItemsList (fun item => HitTest item ref) items 0
      else none
    | none => none
  match onActive with
  | some index => some { layer := layer, index := index }
  | none =>
    scanAllLayers frame (fun item => HitTest item ref) frame.ImagesMaxCount.toNat 0

/-- No item of a present and visible graphic layer `layer` is hit. -/
def GERBVIEW_FRAME.noHitOn (frame : GERBVIEW_FRAME) (hit : GERBER_DRAW_ITEM → Bool)
    (layer : Int) : Prop :=
  ∀ items, frame.GetGbrImage layer = some items → frame.IsLayerVisible layer = true →
    ∀ item ∈ items, hit item = false

/-- The item in position `index` is the first item of `items` that is hit. -/
def firstHitAt (hit : GERBER_DRAW_ITEM → Bool) (items : List GERBER_DRAW_ITEM)
    (index : Nat) : Prop :=
  (∃ item, items[index]? = some item ∧ hit item = true) ∧
    ∀ earlier ∈ items.take index, hit earlier = false

/-- The pointer `r` designates the first hit item of a present and visible layer. -/
def GERBVIEW_FRAME.firstHitOn (frame : GERBVIEW_FRAME) (hit : GERBER_DRAW_ITEM → Bool)
    (r : ItemRef) : Prop :=
  ∃ items, frame.GetGbrImage r.layer = some items ∧ frame.IsLayerVisible r.layer = true ∧
    firstHitAt hit items r.index

/-- Some item of the present and visible graphic layer `layer` is hit. -/
def GERBVIEW_FRAME.hasHitOn (frame : GERBVIEW_FRAME) (hit : GERBER_DRAW_ITEM → Bool)
    (layer : Int) : Prop :=
  ∃ items, frame.GetGbrImage layer = some items ∧ frame.IsLayerVisible layer = true ∧
    ∃ item ∈ items, hit item = true

/-- Scenario A: a segment from `(0,0)` to `(100,0)` drawn with a pen of width 10. -/
def segA : GERBER_DRAW_ITEM :=
  { m_Shape := GBR_SEGMENT, m_End := { x := 100, y := 0 }, m_Size := { x := 10, y := 10 } }

/-- A flashed spot of size `(4,4)` at `(500,500)`. -/
def spotFar : GERBER_DRAW_ITEM :=
  { m_Shape := GBR_SPOT_CIRCLE, m_Flashed := true, m_Start := { x := 500, y := 500 },
    m_Size := { x := 4, y := 4 } }

/-- Scenario B: the same segment on layers 0 and 1, layer 0 invisible, layer 1
visible, active layer 0, 32 graphic layers, grid of pitch 1. -/
def frameB : GERBVIEW_FRAME :=
  { getActiveLayer := 0
    GetGbrImage := fun layer =>
      if layer = 0 then some [segA]
      else if layer = 1 then some [{ segA with m_Layer := 1 }]
      else none
    IsLayerVisible := fun layer => decide (layer = 1)
    ImagesMaxCount := 32
    GetNearestGridPosition := fun p => p }

/-- Layers 0 and 2 both visible and both holding the segment of scenario A;
layer 2 is active and lists the far spot before two copies of the segment. -/
def frameActive : GERBVIEW_FRAME :=
  { getActiveLayer := 2
    GetGbrImage := fun layer =>
      if layer = 0 then some [segA]
      else if layer = 2 then
        some [{ spotFar with m_Layer := 2 }, { segA with m_Layer := 2 },
          { segA with m_Layer := 2, m_DCode := 11 }]
      else none
    IsLayerVisible := fun _ => true
    ImagesMaxCount := 32
    GetNearestGridPosition := fun p => p }

/-! ## Rectangles: hit-testing a rectangle, bounding box -/

/-- Modelled from the spec: the rectangle class `EDA_Rect` (declared outside the
embedded sources), a rectangle given by a position and a dimension. -/
structure EDA_Rect where
  m_Pos : wxPoint
  m_Size : wxSize
deriving DecidableEq, Repr

/-- Modelled from the spec: `EDA_Rect::Inflate( dx, dy )` (declared outside the
embedded sources).  The rectangle grows by `dx` on its left and on its right
and by `dy` above and below: `m_Pos -= (dx, dy)` and `m_Size += (2 * dx, 2 * dy)`,
computed on the `int` members of the rectangle.  This is the bounding box of
the spec, the unit rectangle at `start` inflated by `size/2`. -/
def EDA_Rect.Inflate (self : EDA_Rect) (dx dy : Int) : EDA_Rect :=
  { m_Pos := { x := wrapInt (self.m_Pos.x - dx), y := wrapInt (self.m_Pos.y - dy) }
    m_Size := { x := wrapInt (self.m_Size.x + wrapInt (2 * dx))
                y := wrapInt (self.m_Size.y + wrapInt (2 * dy)) } }

/-- Embedding of `GERBER_DRAW_ITEM::GetBoundingBox()`.  The divisions are the
C++ `int` divisions, which truncate. -/
def GERBER_DRAW_ITEM.GetBoundingBox (self : GERBER_DRAW_ITEM) : EDA_Rect :=
  let bbox : EDA_Rect := { m_Pos := self.m_Start, m_Size := { x := 1, y := 1 } }
  bbox.Inflate (Int.tdiv self.m_Size.x 2) (Int.tdiv self.m_Size.y 2)

/-- Embedding of the overload `GERBER_DRAW_ITEM::HitTest( EDA_Rect& refArea )`.
`EDA_Rect::Inside` is not part of the embedded sources and is taken as the
parameter `Inside`. -/
def GERBER_DRAW_ITEM.HitTestRect (Inside : EDA_Rect → wxPoint → Bool)
    (self : GERBER_DRAW_ITEM) (refArea : EDA_Rect) : Bool :=
  if Inside refArea self.m_Start then true
  else if Inside refArea self.m_End then true
  else false

/-- The rectangle that C9 describes for a polygon, as its two extreme corners:
the minimum and the maximum of `x` and of `y` over the corners.  This follows
the words of the spec; no function of the embedded code computes it. -/
def polyExtent : List wxPoint → Option (wxPoint × wxPoint)
  | [] => none
  | c :: cs =>
    some (cs.foldl
      (fun acc p => ({ x := min acc.1.x p.x, y := min acc.1.y p.y },
        { x := max acc.2.x p.x, y := max acc.2.y p.y }))
      (c, c))

/-- The segment of scenario A with `m_Size.y = 0`. -/
def segThin : GERBER_DRAW_ITEM :=
  { m_Shape := GBR_SEGMENT, m_End := { x := 100, y := 0 }, m_Size := { x := 10, y := 0 } }

/-- A zero-length segment at `(10,10)` drawn with a pen of width 6. -/
def segPoint : GERBER_DRAW_ITEM :=
  { m_Shape := GBR_SEGMENT, m_Start := { x := 10, y := 10 }, m_End := { x := 10, y := 10 },
    m_Size := { x := 6, y := 6 } }

/-- A polygon with corners `(0,0)`, `(10,0)`, `(10,10)`, starting at its first
corner, with zero size. -/
def polyTri : GERBER_DRAW_ITEM :=
  { m_Shape := GBR_POLYGON,
    m_PolyCorners := [{ x := 0, y := 0 }, { x := 10, y := 0 }, { x := 10, y := 10 }] }

/-! ## Moving and copying an item -/

/-- The loop `for( unsigned ii = 0; ii < m_PolyCorners.size(); ii++ )
m_PolyCorners[ii] += aMoveVector;` of `Move`, at index `ii` with `remaining`
iterations to go. -/
def movePolyCorners (aMoveVector : wxPoint) : Nat → Nat → List wxPoint → List wxPoint
  | 0, _, corners => corners
  | remaining + 1, ii, corners =>
    match corners[ii]? with
    | some corner =>
      movePolyCorners aMoveVector remaining (ii + 1) (corners.set ii (corner + aMoveVector))
    | none => corners

/-- Embedding of `GERBER_DRAW_ITEM::Move( const wxPoint& aMoveVector )`. -/
def GERBER_DRAW_ITEM.Move (self : GERBER_DRAW_ITEM) (aMoveVector : wxPoint) :
    GERBER_DRAW_ITEM :=
  { self with
    m_Start := self.m_Start + aMoveVector
    m_End := self.m_End + aMoveVector
    m_ArcCentre := self.m_ArcCentre + aMoveVector
    m_PolyCorners :=
      movePolyCorners aMoveVector self.m_PolyCorners.length 0 self.m_PolyCorners }

/-- Embedding of the copy constructor
`GERBER_DRAW_ITEM::GERBER_DRAW_ITEM( const GERBER_DRAW_ITEM& aSource )`.  The
base class copy and the body assign the members listed here from `aSource`.
`m_ArcCentre` is not assigned anywhere in the constructor, so it keeps the
value of a default-constructed `wxPoint`, which is `(0,0)`. -/
def GERBER_DRAW_ITEM.copyConstructor (aSource : GERBER_DRAW_ITEM) : GERBER_DRAW_ITEM :=
  { m_Shape := aSource.m_Shape
    m_Flags := aSource.m_Flags
    m_TimeStamp := aSource.m_TimeStamp
    m_Status := aSource.m_Status
    m_Start := aSource.m_Start
    m_End := aSource.m_End
    m_Size := aSource.m_Size
    m_Layer := aSource.m_Layer
    m_Flashed := aSource.m_Flashed
    m_DCode := aSource.m_DCode
    m_PolyCorners := aSource.m_PolyCorners
    m_UnitsMetric := aSource.m_UnitsMetric
    m_ImageNegative := aSource.m_ImageNegative
    m_LayerNegative := aSource.m_LayerNegative
    m_ArcCentre := { x := 0, y := 0 } }

/-- Embedding of `GERBER_DRAW_ITEM::Copy()`: `new GERBER_DRAW_ITEM( *this )`. -/
def GERBER_DRAW_ITEM.Copy (self : GERBER_DRAW_ITEM) : GERBER_DRAW_ITEM :=
  GERBER_DRAW_ITEM.copyConstructor self

/-- The rectangle `r` translated by the vector `v`, in the words of the spec:
the same width and height, the origin shifted by `v`.  No function of the
embedded code computes it. -/
def EDA_Rect.translate (r : EDA_Rect) (v : wxPoint) : EDA_Rect :=
  { m_Pos := { x := r.m_Pos.x + v.x, y := r.m_Pos.y + v.y }, m_Size := r.m_Size }

/-- An arc from `(100,0)` to `(0,100)` around the centre `(25,-25)`, drawn with
a pen of width 10 on layer 3. -/
def arcItem : GERBER_DRAW_ITEM :=
  { m_Layer := 3, m_Shape := GBR_ARC, m_DCode := 12,
    m_Start := { x := 100, y := 0 }, m_End := { x := 0, y := 100 },
    m_ArcCentre := { x := 25, y := -25 }, m_Size := { x := 10, y := 10 } }

/-- The segment of scenario A shifted to the left edge of the `int` range. -/
def segEdge : GERBER_DRAW_ITEM :=
  { m_Shape := GBR_SEGMENT, m_Start := { x := -2147483648, y := 0 },
    m_End := { x := -2147483548, y := 0 }, m_Size := { x := 10, y := 10 } }

/-- A zero-length segment at the origin with `m_Size = (10,0)`. -/
def segPointThin : GERBER_DRAW_ITEM :=
  { m_Shape := GBR_SEGMENT, m_Size := { x := 10, y := 0 } }

/-- A zero-length segment at the left edge of the `int` range, drawn with a pen
of width 10. -/
def segPointEdge : GERBER_DRAW_ITEM :=
  { m_Shape := GBR_SEGMENT, m_Start := { x := -2147483648, y := 0 },
    m_End := { x := -2147483648, y := 0 }, m_Size := { x := 10, y := 10 } }

/-! # Theorems -/

/-! ## Facts about the machine arithmetic -/

theorem wrapInt_of_inRange (v : Int) (h1 : -2147483648 ≤ v) (h2 : v < 2147483648) :
    wrapInt v = v := by
  unfold wrapInt
  omega

theorem wrapInt_zero : wrapInt 0 = 0 := by decide

theorem shiftRight_one (v : Int) : v >>> (1 : Nat) = v / 2 := by
  rw [Int.shiftRight_eq_div_pow]
  norm_num

theorem excessBits_pos_bound (fuel a : Nat) (h : 0 < excessBits fuel a) :
    9007199254740992 ≤ a / 2 ^ (excessBits fuel a - 1) := by
  induction fuel generalizing a with
  | zero => simp [excessBits] at h
  | succ f ih =>
    unfold excessBits at h ⊢
    by_cases ha : a < 9007199254740992
    · simp [ha] at h
    · simp only [ha, if_false] at h ⊢
      by_cases h0 : excessBits f (a / 2) = 0
      · simp [h0]
        omega
      · have hpos : 0 < excessBits f (a / 2) := Nat.pos_of_ne_zero h0
        have := ih (a / 2) hpos
        have he : 1 + excessBits f (a / 2) - 1 = (excessBits f (a / 2) - 1) + 1 := by omega
        rw [he, pow_succ, Nat.mul_comm, ← Nat.div_div_eq_div_mul]
        exact this

theorem excessBits_pos (fuel a : Nat) (h : 9007199254740992 ≤ a) :
    0 < excessBits (fuel + 1) a := by
  unfold excessBits
  have : ¬ a < 9007199254740992 := by omega
  simp [this]

/-- Integers of magnitude at most `2^53` are binary64 values. -/
theorem roundToDouble_exact (n : Int) (h : n.natAbs ≤ 9007199254740992) :
    roundToDouble n = n := by
  by_cases hlt : n.natAbs < 9007199254740992
  · simp [roundToDouble, hlt]
  · have heq : n.natAbs = 9007199254740992 := by omega
    rcases Int.natAbs_eq n with hn | hn
    · rw [hn, heq]; decide
    · rw [hn, heq]; decide

/-- Rounding never takes an integer that is at least `2^53` below `2^53`. -/
theorem roundToDouble_ge (n : Int) (h : 9007199254740992 ≤ n) :
    9007199254740992 ≤ roundToDouble n := by
  have hab : (n.natAbs : Int) = n := Int.natAbs_of_nonneg (by omega)
  have ha : 9007199254740992 ≤ n.natAbs := by omega
  have hnlt : ¬ n.natAbs < 9007199254740992 := by omega
  have hsign : Int.sign n = 1 := Int.sign_eq_one_of_pos (by omega)
  have hpos := excessBits_pos 1023 n.natAbs ha
  have hb := excessBits_pos_bound 1024 n.natAbs hpos
  simp only [roundToDouble, hnlt, if_false, hsign, one_mul]
  generalize excessBits 1024 n.natAbs = e at hpos hb ⊢
  obtain ⟨k, rfl⟩ : ∃ k, e = k + 1 := ⟨e - 1, by omega⟩
  simp only [Nat.add_sub_cancel] at hb ⊢
  have hq : 4503599627370496 ≤ n.natAbs / 2 ^ (k + 1) := by
    rw [pow_succ, ← Nat.div_div_eq_div_mul]
    omega
  have hp : 2 ≤ 2 ^ (k + 1) := by
    calc 2 = 2 ^ 1 := by norm_num
      _ ≤ 2 ^ (k + 1) := Nat.pow_le_pow_right (by norm_num) (by omega)
  have hmul : 9007199254740992 ≤ n.natAbs / 2 ^ (k + 1) * 2 ^ (k + 1) := by
    calc 9007199254740992 = 4503599627370496 * 2 := by norm_num
      _ ≤ n.natAbs / 2 ^ (k + 1) * 2 ^ (k + 1) := Nat.mul_le_mul hq hp
  split_ifs
  · have : n.natAbs / 2 ^ (k + 1) * 2 ^ (k + 1) ≤ (n.natAbs / 2 ^ (k + 1) + 1) * 2 ^ (k + 1) :=
      Nat.mul_le_mul_right _ (by omega)
    exact_mod_cast le_trans hmul this
  · exact_mod_cast hmul

theorem natAbs_le_of_bounds (n : Int) (h0 : 0 ≤ n) (h1 : n ≤ 9007199254740992) :
    n.natAbs ≤ 9007199254740992 := by
  omega

/-- The `double` comparison of the flashed branch agrees with the exact integer
comparison as long as the squared distance is at most `2^53`. -/
theorem double_compare_exact (dx dy r : Int)
    (hnear : dx ^ 2 + dy ^ 2 ≤ 9007199254740992) :
    roundToDouble (roundToDouble (dx * dx) + roundToDouble (dy * dy)) ≤ roundToDouble (r * r)
      ↔ dx ^ 2 + dy ^ 2 ≤ r ^ 2 := by
  have hx0 : 0 ≤ dx ^ 2 := sq_nonneg dx
  have hy0 : 0 ≤ dy ^ 2 := sq_nonneg dy
  have hr0 : 0 ≤ r ^ 2 := sq_nonneg r
  have ex : roundToDouble (dx * dx) = dx ^ 2 := by
    rw [← sq]
    exact roundToDouble_exact _ (natAbs_le_of_bounds _ hx0 (by omega))
  have ey : roundToDouble (dy * dy) = dy ^ 2 := by
    rw [← sq]
    exact roundToDouble_exact _ (natAbs_le_of_bounds _ hy0 (by omega))
  have es : roundToDouble (dx ^ 2 + dy ^ 2) = dx ^ 2 + dy ^ 2 :=
    roundToDouble_exact _ (natAbs_le_of_bounds _ (by omega) hnear)
  rw [ex, ey, es, ← sq]
  by_cases hr : r ^ 2 ≤ 9007199254740992
  · rw [roundToDouble_exact _ (natAbs_le_of_bounds _ hr0 hr)]
  · have hge := roundToDouble_ge (r ^ 2) (by omega)
    constructor
    · intro _; omega
    · intro _; omega

theorem wrapInt_of_sq_le (d : Int) (h : d ^ 2 ≤ 9007199254740992) : wrapInt d = d := by
  apply wrapInt_of_inRange
  · nlinarith
  · nlinarith

/-! ## C1: the flashed hit-test -/

/-- C1 (amended): for a flashed item whose size is non-negative and a query
point whose squared distance from `m_Start` is at most `2^53`, `HitTest`
returns true exactly when the Euclidean distance from the point to `m_Start`
is at most `MIN(m_Size.x, m_Size.y) / 2` (integer halving), equivalently when
the squared distance is at most the squared radius. -/
theorem hitTest_flashed_iff_within_radius
    (distanceTest : Int → Int → Int → Int → Int → Bool)
    (P : GERBER_DRAW_ITEM) (Q : wxPoint)
    (hflashed : P.m_Flashed = true)
    (hx : 0 ≤ P.m_Size.x) (hy : 0 ≤ P.m_Size.y)
    (hnear : sqDist Q P.m_Start ≤ 9007199254740992) :
    (P.HitTest distanceTest Q = true ↔
      Real.sqrt ((sqDist Q P.m_Start : Int) : ℝ)
        ≤ ((MIN P.m_Size.x P.m_Size.y / 2 : Int) : ℝ)) ∧
    (P.HitTest distanceTest Q = true ↔
      sqDist Q P.m_Start ≤ (MIN P.m_Size.x P.m_Size.y / 2) ^ 2) := by
  have hsq : P.HitTest distanceTest Q = true ↔
      sqDist Q P.m_Start ≤ (MIN P.m_Size.x P.m_Size.y / 2) ^ 2 := by
    unfold sqDist at hnear ⊢
    have hx0 : 0 ≤ (Q.x - P.m_Start.x) ^ 2 := sq_nonneg _
    have hy0 : 0 ≤ (Q.y - P.m_Start.y) ^ 2 := sq_nonneg _
    have wx := wrapInt_of_sq_le (Q.x - P.m_Start.x) (by omega)
    have wy := wrapInt_of_sq_le (Q.y - P.m_Start.y) (by omega)
    have hd : Q - P.m_Start = { x := Q.x - P.m_Start.x, y := Q.y - P.m_Start.y } := by
      show wxPoint.sub Q P.m_Start = _
      simp [wxPoint.sub, wx, wy]
    simp only [GERBER_DRAW_ITEM.HitTest, hflashed, if_true, hd, shiftRight_one,
      decide_eq_true_eq]
    exact double_compare_exact _ _ _ hnear
  refine ⟨?_, hsq⟩
  rw [hsq, Real.sqrt_le_iff]
  have hr : 0 ≤ MIN P.m_Size.x P.m_Size.y / 2 := by
    unfold MIN
    split_ifs <;> omega
  constructor
  · intro h
    exact ⟨by exact_mod_cast hr, by exact_mod_cast h⟩
  · rintro ⟨_, h⟩
    exact_mod_cast h

/-- Scenario D through C1: the spot of size `(20,20)` at the origin is missed at
`(14,14)` and hit at `(5,5)`. -/
theorem hitTest_flashed_iff_within_radius_witness :
    spotD.HitTest DistanceTest { x := 14, y := 14 } = false ∧
    spotD.HitTest DistanceTest { x := 5, y := 5 } = true := by
  constructor
  · have h := (hitTest_flashed_iff_within_radius DistanceTest spotD { x := 14, y := 14 }
      rfl (by decide) (by decide) (by decide)).2
    rw [Bool.eq_false_iff, Ne, h]
    decide
  · exact (hitTest_flashed_iff_within_radius DistanceTest spotD { x := 5, y := 5 }
      rfl (by decide) (by decide) (by decide)).2.mpr (by decide)

/-- C1 as stated fails in two ways.  With `m_Size = (20,-20)` the radius is
`-10`, no distance is at most a negative radius, and yet the point `(5,5)` is
hit because the radius is squared.  With `m_Size = (2^28, 2^28)` the point
`(2^27, 1)` lies outside the circle of radius `2^27` (squared distance
`2^54 + 1`), and yet it is hit because `2^54 + 1` rounds to `2^54` in `double`. -/
theorem hitTest_flashed_counterexample :
    (spotNegative.HitTest DistanceTest { x := 5, y := 5 } = true ∧
      ¬ Real.sqrt ((sqDist { x := 5, y := 5 } spotNegative.m_Start : Int) : ℝ)
        ≤ ((MIN spotNegative.m_Size.x spotNegative.m_Size.y / 2 : Int) : ℝ)) ∧
    (spotHuge.HitTest DistanceTest { x := 134217728, y := 1 } = true ∧
      ¬ sqDist { x := 134217728, y := 1 } spotHuge.m_Start
        ≤ (MIN spotHuge.m_Size.x spotHuge.m_Size.y / 2) ^ 2) := by
  refine ⟨⟨by decide, ?_⟩, ⟨by decide, by decide⟩⟩
  have hneg : (MIN spotNegative.m_Size.x spotNegative.m_Size.y / 2 : Int) = -10 := by decide
  rw [hneg, not_le]
  have h0 := Real.sqrt_nonneg ((sqDist { x := 5, y := 5 } spotNegative.m_Start : Int) : ℝ)
  have : ((-10 : Int) : ℝ) < 0 := by norm_num
  linarith

/-! ## Facts about the search loops -/

theorem scanItemsList_eq_none (hit : GERBER_DRAW_ITEM → Bool) (items : List GERBER_DRAW_ITEM)
    (pos : Nat) :
    scanItemsList hit items pos = none ↔ ∀ item ∈ items, hit item = false := by
  induction items generalizing pos with
  | nil => simp [scanItemsList]
  | cons a rest ih =>
    unfold scanItemsList
    by_cases ha : hit a = true
    · simp [ha]
    · simp [ha, ih]

theorem scanItemsList_eq_some (hit : GERBER_DRAW_ITEM → Bool) (items : List GERBER_DRAW_ITEM)
    (pos n : Nat) :
    scanItemsList hit items pos = some n ↔ ∃ i, n = pos + i ∧ firstHitAt hit items i := by
  induction items generalizing pos with
  | nil => simp [scanItemsList, firstHitAt]
  | cons a rest ih =>
    unfold scanItemsList
    by_cases ha : hit a = true
    · simp only [ha, if_true, Option.some.injEq]
      constructor
      · intro h
        exact ⟨0, by omega, ⟨a, by simp, ha⟩, by simp⟩
      · rintro ⟨i, hn, ⟨_, hfirst⟩⟩
        cases i with
        | zero => omega
        | succ k =>
          have := hfirst a (by simp)
          simp [ha] at this
    · simp only [ha, Bool.false_eq_true, if_false, ih]
      constructor
      · rintro ⟨i, hn, ⟨item, hget, hhit⟩, hfirst⟩
        refine ⟨i + 1, by omega, ⟨item, by simpa using hget, hhit⟩, ?_⟩
        intro e he
        simp only [List.take_succ_cons, List.mem_cons] at he
        rcases he with rfl | he
        · simpa using ha
        · exact hfirst e he
      · rintro ⟨i, hn, ⟨item, hget, hhit⟩, hfirst⟩
        cases i with
        | zero =>
          simp at hget
          subst hget
          exact absurd hhit ha
        | succ k =>
          refine ⟨k, by omega, ⟨item, by simpa using hget, hhit⟩, ?_⟩
          intro e he
          exact hfirst e (by simp [he])

theorem scanItemsList_isSome_of_hit (hit : GERBER_DRAW_ITEM → Bool)
    (items : List GERBER_DRAW_ITEM) (h : ∃ item ∈ items, hit item = true) :
    ∃ i, scanItemsList hit items 0 = some i ∧ firstHitAt hit items i := by
  cases hs : scanItemsList hit items 0 with
  | none =>
    obtain ⟨item, hmem, hhit⟩ := h
    have := (scanItemsList_eq_none hit items 0).mp hs item hmem
    simp [hhit] at this
  | some n =>
    obtain ⟨i, hn, hfirst⟩ := (scanItemsList_eq_some hit items 0 n).mp hs
    refine ⟨n, rfl, ?_⟩
    have : n = i := by omega
    exact this ▸ hfirst

theorem noHitOn_of_absent (frame : GERBVIEW_FRAME) (hit : GERBER_DRAW_ITEM → Bool) (layer : Int)
    (h : frame.GetGbrImage layer = none) : frame.noHitOn hit layer := by
  intro items hitems
  rw [h] at hitems
  cases hitems

theorem noHitOn_of_invisible (frame : GERBVIEW_FRAME) (hit : GERBER_DRAW_ITEM → Bool)
    (layer : Int) (h : frame.IsLayerVisible layer = false) : frame.noHitOn hit layer := by
  intro items _ hvis
  rw [h] at hvis
  cases hvis

theorem firstHitOn_not_noHitOn (frame : GERBVIEW_FRAME) (hit : GERBER_DRAW_ITEM → Bool)
    (r : ItemRef) (h : frame.firstHitOn hit r) : ¬ frame.noHitOn hit r.layer := by
  obtain ⟨items, hitems, hvis, ⟨item, hget, hhit⟩, _⟩ := h
  intro hno
  have := hno items hitems hvis item (List.getElem?_mem hget)
  simp [hhit] at this

/-- One iteration of the loop over all layers, seen from outside: either the
layer yields its first hit, or nothing on it is hit and the loop goes on. -/
theorem scanAllLayers_succ (frame : GERBVIEW_FRAME) (hit : GERBER_DRAW_ITEM → Bool)
    (n : Nat) (l : Int) :
    (frame.noHitOn hit l ∧
      scanAllLayers frame hit (n + 1) l = scanAllLayers frame hit n (l + 1)) ∨
    (∃ i, frame.firstHitOn hit { layer := l, index := i } ∧
      scanAllLayers frame hit (n + 1) l = some { layer := l, index := i }) := by
  cases himg : frame.GetGbrImage l with
  | none =>
    exact Or.inl ⟨noHitOn_of_absent frame hit l himg, by simp only [scanAllLayers, himg]⟩
  | some items =>
    cases hvis : frame.IsLayerVisible l with
    | false =>
      exact Or.inl ⟨noHitOn_of_invisible frame hit l hvis,
        by simp only [scanAllLayers, himg, hvis, Bool.not_false, if_true]⟩
    | true =>
      cases hs : scanItemsList hit items 0 with
      | none =>
        refine Or.inl ⟨?_, by simp [scanAllLayers, himg, hvis, hs]⟩
        intro items' hitems' _
        rw [himg] at hitems'
        cases hitems'
        exact (scanItemsList_eq_none hit items 0).mp hs
      | some i =>
        refine Or.inr ⟨i, ⟨items, himg, hvis, ?_⟩, by simp [scanAllLayers, himg, hvis, hs]⟩
        obtain ⟨k, hk, hfirst⟩ := (scanItemsList_eq_some hit items 0 i).mp hs
        have : i = k := by omega
        exact this ▸ hfirst

theorem scanAllLayers_eq_none (frame : GERBVIEW_FRAME) (hit : GERBER_DRAW_ITEM → Bool)
    (n : Nat) (l : Int) :
    scanAllLayers frame hit n l = none ↔
      ∀ k, l ≤ k → k < l + n → frame.noHitOn hit k := by
  induction n generalizing l with
  | zero =>
    simp only [scanAllLayers, true_iff]
    intro k h1 h2
    simp at h2
    omega
  | succ m ih =>
    rcases scanAllLayers_succ frame hit m l with ⟨hno, heq⟩ | ⟨i, hfirst, heq⟩
    · rw [heq, ih]
      constructor
      · intro h k h1 h2
        by_cases hk : k = l
        · exact hk ▸ hno
        · exact h k (by omega) (by push_cast at h2; omega)
      · intro h k h1 h2
        exact h k (by omega) (by push_cast; omega)
    · rw [heq]
      constructor
      · intro h
        cases h
      · intro h
        exact absurd (h l (le_refl l) (by push_cast; omega))
          (firstHitOn_not_noHitOn frame hit _ hfirst)

theorem scanAllLayers_eq_some (frame : GERBVIEW_FRAME) (hit : GERBER_DRAW_ITEM → Bool)
    (n : Nat) (l : Int) (r : ItemRef) (h : scanAllLayers frame hit n l = some r) :
    l ≤ r.layer ∧ r.layer < l + n ∧ frame.firstHitOn hit r ∧
      ∀ k, l ≤ k → k < r.layer → frame.noHitOn hit k := by
  induction n generalizing l with
  | zero => simp [scanAllLayers] at h
  | succ m ih =>
    rcases scanAllLayers_succ frame hit m l with ⟨hno, heq⟩ | ⟨i, hfirst, heq⟩
    · rw [heq] at h
      obtain ⟨h1, h2, h3, h4⟩ := ih (l + 1) h
      refine ⟨by omega, by push_cast; omega, h3, ?_⟩
      intro k hk1 hk2
      by_cases hk : k = l
      · exact hk ▸ hno
      · exact h4 k (by omega) hk2
    · rw [heq] at h
      cases h
      refine ⟨le_refl l, by push_cast; omega, hfirst, ?_⟩
      intro k hk1 hk2
      simp only at hk2
      omega

theorem noHitOn_iff_not_hasHitOn (frame : GERBVIEW_FRAME) (hit : GERBER_DRAW_ITEM → Bool)
    (layer : Int) : frame.noHitOn hit layer ↔ ¬ frame.hasHitOn hit layer := by
  constructor
  · rintro hno ⟨items, hitems, hvis, item, hmem, hhit⟩
    have := hno items hitems hvis item hmem
    simp [hhit] at this
  · intro hnot items hitems hvis item hmem
    cases hh : hit item with
    | false => rfl
    | true => exact absurd ⟨items, hitems, hvis, item, hmem, hh⟩ hnot

theorem hasHitOn_of_firstHitOn (frame : GERBVIEW_FRAME) (hit : GERBER_DRAW_ITEM → Bool)
    (r : ItemRef) (h : frame.firstHitOn hit r) : frame.hasHitOn hit r.layer := by
  obtain ⟨items, hitems, hvis, ⟨item, hget, hhit⟩, _⟩ := h
  exact ⟨items, hitems, hvis, item, List.getElem?_mem hget, hhit⟩

/-- The first phase of `Locate`: a hit on the active layer is returned. -/
theorem locate_of_hit_on_active (HitTest : GERBER_DRAW_ITEM → wxPoint → Bool)
    (cog : Int) (frame : GERBVIEW_FRAME) (pos : wxPoint) (typeloc : Int)
    (h : frame.hasHitOn (fun item => HitTest item (frame.refPosition cog pos typeloc))
      frame.getActiveLayer) :
    ∃ i, frame.Locate HitTest cog pos typeloc = some { layer := frame.getActiveLayer, index := i } ∧
      frame.firstHitOn (fun item => HitTest item (frame.refPosition cog pos typeloc))
        { layer := frame.getActiveLayer, index := i } := by
  obtain ⟨items, hitems, hvis, hhit⟩ := h
  obtain ⟨i, hs, hfirst⟩ := scanItemsList_isSome_of_hit _ items hhit
  refine ⟨i, ?_, ⟨items, hitems, hvis, hfirst⟩⟩
  simp only [GERBVIEW_FRAME.Locate, hitems, hvis, if_true, hs]

/-- The second phase of `Locate`: without a hit on the active layer the result
is that of the loop over all layers. -/
theorem locate_of_no_hit_on_active (HitTest : GERBER_DRAW_ITEM → wxPoint → Bool)
    (cog : Int) (frame : GERBVIEW_FRAME) (pos : wxPoint) (typeloc : Int)
    (h : ¬ frame.hasHitOn (fun item => HitTest item (frame.refPosition cog pos typeloc))
      frame.getActiveLayer) :
    frame.Locate HitTest cog pos typeloc =
      scanAllLayers frame (fun item => HitTest item (frame.refPosition cog pos typeloc))
        frame.ImagesMaxCount.toNat 0 := by
  have hno := (noHitOn_iff_not_hasHitOn _ _ _).mpr h
  cases hitems : frame.GetGbrImage frame.getActiveLayer with
  | none => simp only [GERBVIEW_FRAME.Locate, hitems]
  | some items =>
    cases hvis : frame.IsLayerVisible frame.getActiveLayer with
    | false => simp [GERBVIEW_FRAME.Locate, hitems, hvis]
    | true =>
      have := (scanItemsList_eq_none _ items 0).mpr (hno items hitems hvis)
      simp only [GERBVIEW_FRAME.Locate, hitems, hvis, if_true, this]

/-! ## C2, C3, C4: the Locate search -/

/-- C2: when the active layer has an image, is visible and holds at least one
item that is hit at the (grid-snapped when requested) point, `Locate` returns
the first such item of that image's list, whatever the other layers hold. -/
theorem locate_returns_first_hit_of_active_layer
    (HitTest : GERBER_DRAW_ITEM → wxPoint → Bool) (cog : Int) (frame : GERBVIEW_FRAME)
    (pos : wxPoint) (typeloc : Int) (items : List GERBER_DRAW_ITEM)
    (hpresent : frame.GetGbrImage frame.getActiveLayer = some items)
    (hvisible : frame.IsLayerVisible frame.getActiveLayer = true)
    (hhit : ∃ item ∈ items, HitTest item (frame.refPosition cog pos typeloc) = true) :
    ∃ i, frame.Locate HitTest cog pos typeloc
          = some { layer := frame.getActiveLayer, index := i } ∧
      firstHitAt (fun item => HitTest item (frame.refPosition cog pos typeloc)) items i := by
  obtain ⟨i, hloc, items', hitems', _, hfirst⟩ :=
    locate_of_hit_on_active HitTest cog frame pos typeloc ⟨items, hpresent, hvisible, hhit⟩
  refine ⟨i, hloc, ?_⟩
  simp only at hitems' hfirst
  rw [hpresent] at hitems'
  cases hitems'
  exact hfirst

/-- C2 on a concrete frame: layer 2 is active and its second item is the first
one hit at `(50,3)`; the segment on the visible layer 0 is hit as well and is
not returned. -/
theorem locate_returns_first_hit_of_active_layer_witness :
    (∃ i, frameActive.Locate (GERBER_DRAW_ITEM.HitTest DistanceTest) 0 { x := 50, y := 3 } 0
          = some { layer := 2, index := i } ∧
      firstHitAt (fun item => GERBER_DRAW_ITEM.HitTest DistanceTest item
          (frameActive.refPosition 0 { x := 50, y := 3 } 0))
        [{ spotFar with m_Layer := 2 }, { segA with m_Layer := 2 },
          { segA with m_Layer := 2, m_DCode := 11 }] i) ∧
    frameActive.Locate (GERBER_DRAW_ITEM.HitTest DistanceTest) 0 { x := 50, y := 3 } 0
      = some { layer := 2, index := 1 } ∧
    GERBER_DRAW_ITEM.HitTest DistanceTest segA { x := 50, y := 3 } = true :=
  ⟨locate_returns_first_hit_of_active_layer (GERBER_DRAW_ITEM.HitTest DistanceTest) 0
      frameActive { x := 50, y := 3 } 0 _ rfl rfl
      ⟨{ segA with m_Layer := 2 }, by simp, by decide⟩,
    by decide, by decide⟩

/-- A layer has no hit exactly when it is absent, or not visible, or none of
its items is hit. -/
theorem not_hasHitOn_iff (frame : GERBVIEW_FRAME) (hit : GERBER_DRAW_ITEM → Bool) (layer : Int) :
    ¬ frame.hasHitOn hit layer ↔
      frame.GetGbrImage layer = none ∨ frame.IsLayerVisible layer = false ∨
        ∃ items, frame.GetGbrImage layer = some items ∧ ∀ item ∈ items, hit item = false := by
  rw [← noHitOn_iff_not_hasHitOn]
  constructor
  · intro hno
    cases himg : frame.GetGbrImage layer with
    | none => exact Or.inl rfl
    | some items =>
      cases hvis : frame.IsLayerVisible layer with
      | false => exact Or.inr (Or.inl rfl)
      | true => exact Or.inr (Or.inr ⟨items, rfl, hno items himg hvis⟩)
  · rintro (h | h | ⟨items, hitems, h⟩)
    · exact noHitOn_of_absent frame hit layer h
    · exact noHitOn_of_invisible frame hit layer h
    · intro items' hitems' _
      rw [hitems] at hitems'
      cases hitems'
      exact h

/-- C3: when the active layer is absent, not visible or holds no item that is
hit, `Locate` returns the first hit item of the lowest layer `L` in
`0 .. ImagesMaxCount-1` that is present, visible and holds a hit item; the
layers below `L`, being absent, invisible or without a hit, are passed over. -/
theorem locate_falls_back_to_lowest_hit_layer
    (HitTest : GERBER_DRAW_ITEM → wxPoint → Bool) (cog : Int) (frame : GERBVIEW_FRAME)
    (pos : wxPoint) (typeloc : Int) (L : Int)
    (hactive : ¬ frame.hasHitOn (fun item => HitTest item (frame.refPosition cog pos typeloc))
      frame.getActiveLayer)
    (hL0 : 0 ≤ L) (hLmax : L < frame.ImagesMaxCount)
    (hL : frame.hasHitOn (fun item => HitTest item (frame.refPosition cog pos typeloc)) L)
    (hlowest : ∀ k, 0 ≤ k → k < L →
      ¬ frame.hasHitOn (fun item => HitTest item (frame.refPosition cog pos typeloc)) k) :
    ∃ i, frame.Locate HitTest cog pos typeloc = some { layer := L, index := i } ∧
      frame.firstHitOn (fun item => HitTest item (frame.refPosition cog pos typeloc))
        { layer := L, index := i } := by
  rw [locate_of_no_hit_on_active HitTest cog frame pos typeloc hactive]
  have hmax : ((frame.ImagesMaxCount.toNat : Nat) : Int) = frame.ImagesMaxCount :=
    Int.toNat_of_nonneg (by omega)
  cases hs : scanAllLayers frame (fun item => HitTest item (frame.refPosition cog pos typeloc))
      frame.ImagesMaxCount.toNat 0 with
  | none =>
    have hno := (scanAllLayers_eq_none _ _ _ _).mp hs L hL0 (by omega)
    exact absurd hL ((noHitOn_iff_not_hasHitOn _ _ _).mp hno)
  | some r =>
    obtain ⟨h1, _, hfirst, hbelow⟩ := scanAllLayers_eq_some _ _ _ _ r hs
    have hlayer : r.layer = L := by
      rcases lt_trichotomy r.layer L with hlt | heq | hgt
      · exact absurd (hasHitOn_of_firstHitOn _ _ r hfirst) (hlowest r.layer h1 hlt)
      · exact heq
      · exact absurd hL ((noHitOn_iff_not_hasHitOn _ _ _).mp (hbelow L hL0 hgt))
    refine ⟨r.index, ?_, ?_⟩
    · rw [← hlayer]
    · rw [← hlayer]
      exact hfirst

/-- Scenario B through C3: the same segment on layers 0 and 1, layer 0
invisible and active, layer 1 visible; the item of layer 1 is returned. -/
theorem locate_falls_back_to_lowest_hit_layer_witness :
    (∃ i, frameB.Locate (GERBER_DRAW_ITEM.HitTest DistanceTest) 0 { x := 50, y := 3 } 0
          = some { layer := 1, index := i } ∧
      frameB.firstHitOn (fun item => GERBER_DRAW_ITEM.HitTest DistanceTest item
          (frameB.refPosition 0 { x := 50, y := 3 } 0)) { layer := 1, index := i }) ∧
    frameB.Locate (GERBER_DRAW_ITEM.HitTest DistanceTest) 0 { x := 50, y := 3 } 0
      = some { layer := 1, index := 0 } := by
  refine ⟨locate_falls_back_to_lowest_hit_layer (GERBER_DRAW_ITEM.HitTest DistanceTest) 0
      frameB { x := 50, y := 3 } 0 1 ?_ (by decide) (by decide) ?_ ?_, by decide⟩
  · rintro ⟨_, _, hvis, _⟩
    exact absurd hvis (by decide)
  · exact ⟨[{ segA with m_Layer := 1 }], rfl, rfl, { segA with m_Layer := 1 }, by simp,
      by decide⟩
  · rintro k hk0 hk1 ⟨_, _, hvis, _⟩
    have hk : k = 0 := by omega
    subst hk
    exact absurd hvis (by decide)

/-- C4: with the active layer index within `0 .. ImagesMaxCount-1`, `Locate`
returns NULL exactly when no present and visible layer of that range holds an
item that is hit; otherwise the returned pointer designates an item of a
present and visible layer of that range, and that item is hit. -/
theorem locate_null_iff_no_visible_hit
    (HitTest : GERBER_DRAW_ITEM → wxPoint → Bool) (cog : Int) (frame : GERBVIEW_FRAME)
    (pos : wxPoint) (typeloc : Int)
    (hactive0 : 0 ≤ frame.getActiveLayer)
    (hactive1 : frame.getActiveLayer < frame.ImagesMaxCount) :
    (frame.Locate HitTest cog pos typeloc = none ↔
      ∀ k, 0 ≤ k → k < frame.ImagesMaxCount →
        ¬ frame.hasHitOn (fun item => HitTest item (frame.refPosition cog pos typeloc)) k) ∧
    (∀ r, frame.Locate HitTest cog pos typeloc = some r →
      0 ≤ r.layer ∧ r.layer < frame.ImagesMaxCount ∧
      ∃ items item, frame.GetGbrImage r.layer = some items ∧
        frame.IsLayerVisible r.layer = true ∧ items[r.index]? = some item ∧
        HitTest item (frame.refPosition cog pos typeloc) = true) := by
  have hmax : ((frame.ImagesMaxCount.toNat : Nat) : Int) = frame.ImagesMaxCount :=
    Int.toNat_of_nonneg (by omega)
  have hplain : ∀ r : ItemRef,
      frame.firstHitOn (fun item => HitTest item (frame.refPosition cog pos typeloc)) r →
      ∃ items item, frame.GetGbrImage r.layer = some items ∧
        frame.IsLayerVisible r.layer = true ∧ items[r.index]? = some item ∧
        HitTest item (frame.refPosition cog pos typeloc) = true := by
    rintro r ⟨items, hitems, hvis, ⟨item, hget, hhit⟩, _⟩
    exact ⟨items, item, hitems, hvis, hget, hhit⟩
  by_cases hact : frame.hasHitOn (fun item => HitTest item (frame.refPosition cog pos typeloc))
      frame.getActiveLayer
  · obtain ⟨i, hloc, hfirst⟩ := locate_of_hit_on_active HitTest cog frame pos typeloc hact
    rw [hloc]
    constructor
    · constructor
      · intro h
        cases h
      · intro h
        exact absurd hact (h _ hactive0 hactive1)
    · intro r hr
      cases hr
      exact ⟨hactive0, hactive1, hplain _ hfirst⟩
  · rw [locate_of_no_hit_on_active HitTest cog frame pos typeloc hact]
    constructor
    · rw [scanAllLayers_eq_none]
      constructor
      · intro h k hk0 hk1
        exact (noHitOn_iff_not_hasHitOn _ _ _).mp (h k hk0 (by omega))
      · intro h k hk0 hk1
        exact (noHitOn_iff_not_hasHitOn _ _ _).mpr (h k hk0 (by omega))
    · intro r hr
      obtain ⟨h1, h2, hfirst, _⟩ := scanAllLayers_eq_some _ _ _ _ r hr
      exact ⟨h1, by omega, hplain r hfirst⟩

/-- C4 on the frame of scenario B: at `(50,10)` nothing is hit and the result is
NULL; at `(50,3)` the returned item is on the visible layer 1, not on the
invisible layer 0. -/
theorem locate_null_iff_no_visible_hit_witness :
    frameB.Locate (GERBER_DRAW_ITEM.HitTest DistanceTest) 0 { x := 50, y := 10 } 0 = none ∧
    (∃ items item, frameB.GetGbrImage 1 = some items ∧ frameB.IsLayerVisible 1 = true ∧
      items[0]? = some item ∧
      GERBER_DRAW_ITEM.HitTest DistanceTest item
        (frameB.refPosition 0 { x := 50, y := 3 } 0) = true) := by
  constructor
  · refine (locate_null_iff_no_visible_hit (GERBER_DRAW_ITEM.HitTest DistanceTest) 0 frameB
      { x := 50, y := 10 } 0 (by decide) (by decide)).1.mpr ?_
    rintro k _ _ ⟨items, hitems, hvis, item, hmem, hhit⟩
    have hk : k = 1 := by simpa [frameB] using hvis
    subst hk
    have hi : items = [{ segA with m_Layer := 1 }] := by
      have : some [{ segA with m_Layer := 1 }] = some items := hitems
      exact (Option.some.inj this).symm
    subst hi
    have hitem : item = { segA with m_Layer := 1 } := by simpa using hmem
    subst hitem
    exact absurd hhit (by decide)
  · exact ((locate_null_iff_no_visible_hit (GERBER_DRAW_ITEM.HitTest DistanceTest) 0 frameB
      { x := 50, y := 3 } 0 (by decide) (by decide)).2 { layer := 1, index := 0 }
      (by decide)).2.2

/-! ## C5, C6, C7: the stroked hit-test -/

/-- C5 (amended): for a non-flashed item the point hit-test is `DistanceTest`
with threshold `MIN(m_Size.x, m_Size.y) >> 1` applied to `m_End - m_Start` and
`ref_pos - m_Start`; the threshold is half the stroke width `m_Size.x / 2`
whenever `0 ≤ m_Size.x ≤ m_Size.y`.  This holds for every `DistanceTest`. -/
theorem hitTest_stroked_eq_distanceTest
    (distanceTest : Int → Int → Int → Int → Int → Bool)
    (P : GERBER_DRAW_ITEM) (Q : wxPoint) (hstroked : P.m_Flashed = false) :
    P.HitTest distanceTest Q =
        distanceTest (MIN P.m_Size.x P.m_Size.y >>> (1 : Nat))
          (P.m_End - P.m_Start).x (P.m_End - P.m_Start).y
          (Q - P.m_Start).x (Q - P.m_Start).y ∧
    (0 ≤ P.m_Size.x → P.m_Size.x ≤ P.m_Size.y →
      P.HitTest distanceTest Q =
        distanceTest (P.m_Size.x / 2)
          (P.m_End - P.m_Start).x (P.m_End - P.m_Start).y
          (Q - P.m_Start).x (Q - P.m_Start).y) := by
  have hgen : P.HitTest distanceTest Q =
      distanceTest (MIN P.m_Size.x P.m_Size.y >>> (1 : Nat))
        (P.m_End - P.m_Start).x (P.m_End - P.m_Start).y
        (Q - P.m_Start).x (Q - P.m_Start).y := by
    simp [GERBER_DRAW_ITEM.HitTest, hstroked]
  refine ⟨hgen, ?_⟩
  intro _ hxy
  have hmin : MIN P.m_Size.x P.m_Size.y = P.m_Size.x := by
    unfold MIN
    split_ifs <;> omega
  rw [hgen, hmin, shiftRight_one]

/-- Scenario A through C5: the segment from `(0,0)` to `(100,0)` of size
`(10,10)` is hit at `(50,3)` and missed at `(50,10)`, with the `DistanceTest`
modelled from the spec. -/
theorem hitTest_stroked_eq_distanceTest_witness :
    segA.HitTest DistanceTest { x := 50, y := 3 } = true ∧
    segA.HitTest DistanceTest { x := 50, y := 10 } = false := by
  constructor
  · rw [(hitTest_stroked_eq_distanceTest DistanceTest segA { x := 50, y := 3 } rfl).2
      (by decide) (by decide)]
    decide
  · rw [(hitTest_stroked_eq_distanceTest DistanceTest segA { x := 50, y := 10 } rfl).2
      (by decide) (by decide)]
    decide

/-- C5 as stated fails: the segment of scenario A with `m_Size = (10,0)` is
missed at `(50,3)`, although the distance test with threshold `m_Size.x / 2 = 5`
succeeds there; the threshold the code uses is `MIN(10,0) >> 1 = 0`. -/
theorem hitTest_stroked_counterexample :
    segThin.HitTest DistanceTest { x := 50, y := 3 } = false ∧
    DistanceTest (segThin.m_Size.x / 2)
      (segThin.m_End - segThin.m_Start).x (segThin.m_End - segThin.m_Start).y
      (({ x := 50, y := 3 } : wxPoint) - segThin.m_Start).x
      (({ x := 50, y := 3 } : wxPoint) - segThin.m_Start).y = true := by
  decide

theorem sq_sum_eq_zero_iff (dx dy : Int) : dx * dx + dy * dy = 0 ↔ dx = 0 ∧ dy = 0 := by
  constructor
  · intro h
    constructor <;> nlinarith [mul_self_nonneg dx, mul_self_nonneg dy]
  · rintro ⟨rfl, rfl⟩
    rfl

/-- The division-explicit test never divides by zero, and its result is that of
`DistanceTest`. -/
theorem DistanceTestDiv_eq (seuil dx dy px py : Int) :
    DistanceTestDiv seuil dx dy px py = some (DistanceTest seuil dx dy px py) := by
  unfold DistanceTestDiv DistanceTest
  by_cases hneg : seuil < 0
  · simp [hneg]
  by_cases hzero : dx = 0 ∧ dy = 0
  · obtain ⟨rfl, rfl⟩ := hzero
    simp [hneg]
  have hlen : dx * dx + dy * dy ≠ 0 := fun h => hzero ((sq_sum_eq_zero_iff dx dy).mp h)
  have hlenpos : 0 < dx * dx + dy * dy := by
    have := add_nonneg (mul_self_nonneg dx) (mul_self_nonneg dy)
    omega
  have hLq : (0 : ℚ) < (dx : ℚ) * dx + (dy : ℚ) * dy := by exact_mod_cast hlenpos
  have hLne : (dx : ℚ) * dx + (dy : ℚ) * dy ≠ 0 := ne_of_gt hLq
  simp only [hneg, hzero, hlen, if_false, checkedDiv, hLne, Option.some.injEq]
  set L : ℚ := (dx : ℚ) * dx + (dy : ℚ) * dy with hL
  set D : ℚ := (px : ℚ) * dx + (py : ℚ) * dy with hD
  by_cases hd0 : px * dx + py * dy ≤ 0
  · have hDq : D ≤ 0 := by rw [hD]; exact_mod_cast hd0
    have ht : D / L ≤ 0 := div_nonpos_of_nonpos_of_nonneg hDq hLq.le
    have hc : max 0 (min 1 (D / L)) = 0 := by
      rw [min_eq_right (le_trans ht zero_le_one), max_eq_left ht]
    simp only [hd0, if_true, hc, zero_mul, sub_zero]
    rw [decide_eq_decide]
    constructor
    · intro h; exact_mod_cast h
    · intro h; exact_mod_cast h
  by_cases hd1 : dx * dx + dy * dy ≤ px * dx + py * dy
  · have hDq : L ≤ D := by rw [hD, hL]; exact_mod_cast hd1
    have ht : 1 ≤ D / L := (one_le_div hLq).mpr hDq
    have hc : max 0 (min 1 (D / L)) = 1 := by
      rw [min_eq_left ht, max_eq_right zero_le_one]
    simp only [hd0, hd1, if_true, if_false, hc, one_mul]
    rw [decide_eq_decide]
    constructor
    · intro h; exact_mod_cast h
    · intro h; exact_mod_cast h
  · have hD0 : 0 < D := by
      rw [hD]; exact_mod_cast (not_le.mp hd0)
    have hD1 : D < L := by
      rw [hD, hL]; exact_mod_cast (not_le.mp hd1)
    have ht0 : 0 ≤ D / L := (div_pos hD0 hLq).le
    have ht1 : D / L ≤ 1 := ((div_lt_one hLq).mpr hD1).le
    have hc : max 0 (min 1 (D / L)) = D / L := by
      rw [min_eq_right ht1, max_eq_right ht0]
    simp only [hd0, hd1, if_false, hc]
    rw [decide_eq_decide]
    have hkey : ((px : ℚ) - D / L * dx) * ((px : ℚ) - D / L * dx)
        + ((py : ℚ) - D / L * dy) * ((py : ℚ) - D / L * dy)
        = (((px : ℚ) * dy - py * dx) * ((px : ℚ) * dy - py * dx)) / L := by
      rw [hD, hL]
      field_simp
      ring
    rw [hkey, div_le_iff₀ hLq]
    constructor
    · intro h; rw [hL] at h; exact_mod_cast h
    · intro h; rw [hL]; exact_mod_cast h

/-- C6 (amended): for a non-flashed item with `m_Start = m_End` and a query
point whose difference to `m_Start` does not overflow `int`, the point
hit-test, with `DistanceTest` as the spec describes it, performs no division
by zero (the division-explicit test returns, with the result of `HitTest`) and
is a point test: it is true exactly when the distance from the query point to
`m_Start` is at most `MIN(m_Size.x, m_Size.y) >> 1`, which is the half-width
`m_Size.x / 2` whenever `0 ≤ m_Size.x ≤ m_Size.y`. -/
theorem hitTest_zero_length_is_point_test (P : GERBER_DRAW_ITEM) (Q : wxPoint)
    (hstroked : P.m_Flashed = false) (hzero : P.m_Start = P.m_End)
    (hdx : isInt32 (Q.x - P.m_Start.x)) (hdy : isInt32 (Q.y - P.m_Start.y)) :
    DistanceTestDiv (MIN P.m_Size.x P.m_Size.y >>> (1 : Nat))
        (P.m_End - P.m_Start).x (P.m_End - P.m_Start).y
        (Q - P.m_Start).x (Q - P.m_Start).y
      = some (P.HitTest DistanceTest Q) ∧
    (P.HitTest DistanceTest Q = true ↔
      Real.sqrt ((sqDist Q P.m_Start : Int) : ℝ)
        ≤ ((MIN P.m_Size.x P.m_Size.y >>> (1 : Nat) : Int) : ℝ)) ∧
    (P.HitTest DistanceTest Q = true ↔
      0 ≤ MIN P.m_Size.x P.m_Size.y >>> (1 : Nat) ∧
      sqDist Q P.m_Start ≤ (MIN P.m_Size.x P.m_Size.y >>> (1 : Nat)) ^ 2) ∧
    (0 ≤ P.m_Size.x → P.m_Size.x ≤ P.m_Size.y →
      (P.HitTest DistanceTest Q = true ↔
        Real.sqrt ((sqDist Q P.m_Start : Int) : ℝ) ≤ ((P.m_Size.x / 2 : Int) : ℝ))) := by
  have hdelta : P.m_End - P.m_Start = { x := 0, y := 0 } := by
    rw [← hzero]
    show wxPoint.sub P.m_Start P.m_Start = _
    simp [wxPoint.sub, wrapInt_zero]
  have hdist : Q - P.m_Start = { x := Q.x - P.m_Start.x, y := Q.y - P.m_Start.y } := by
    show wxPoint.sub Q P.m_Start = _
    simp [wxPoint.sub, wrapInt_of_inRange _ hdx.1 hdx.2, wrapInt_of_inRange _ hdy.1 hdy.2]
  have hcall : P.HitTest DistanceTest Q =
      DistanceTest (MIN P.m_Size.x P.m_Size.y >>> (1 : Nat))
        (P.m_End - P.m_Start).x (P.m_End - P.m_Start).y
        (Q - P.m_Start).x (Q - P.m_Start).y := by
    simp [GERBER_DRAW_ITEM.HitTest, hstroked]
  have hsq : P.HitTest DistanceTest Q = true ↔
      0 ≤ MIN P.m_Size.x P.m_Size.y >>> (1 : Nat) ∧
      sqDist Q P.m_Start ≤ (MIN P.m_Size.x P.m_Size.y >>> (1 : Nat)) ^ 2 := by
    rw [hcall, hdelta, hdist]
    generalize MIN P.m_Size.x P.m_Size.y >>> (1 : Nat) = r
    simp only [DistanceTest, sqDist]
    by_cases hneg : r < 0
    · simp [hneg]
    · simp [hneg, sq]
      intro _
      omega
  have hreal : P.HitTest DistanceTest Q = true ↔
      Real.sqrt ((sqDist Q P.m_Start : Int) : ℝ)
        ≤ ((MIN P.m_Size.x P.m_Size.y >>> (1 : Nat) : Int) : ℝ) := by
    rw [hsq, Real.sqrt_le_iff]
    constructor
    · rintro ⟨h0, h⟩
      exact ⟨by exact_mod_cast h0, by exact_mod_cast h⟩
    · rintro ⟨h0, h⟩
      exact ⟨by exact_mod_cast h0, by exact_mod_cast h⟩
  refine ⟨?_, hreal, hsq, ?_⟩
  · rw [hcall]
    exact DistanceTestDiv_eq _ _ _ _ _
  · intro _ hxy
    have hmin : MIN P.m_Size.x P.m_Size.y = P.m_Size.x := by
      unfold MIN
      split_ifs <;> omega
    rw [hreal, hmin, shiftRight_one]

/-- C6 on a zero-length segment at `(10,10)` of width 6: `(12,12)` is within
the tolerance 3 and `(13,13)` is not. -/
theorem hitTest_zero_length_is_point_test_witness :
    segPoint.HitTest DistanceTest { x := 12, y := 12 } = true ∧
    segPoint.HitTest DistanceTest { x := 13, y := 13 } = false := by
  constructor
  · exact (hitTest_zero_length_is_point_test segPoint { x := 12, y := 12 } rfl rfl
      (by decide) (by decide)).2.2.1.mpr (by decide)
  · rw [Bool.eq_false_iff, Ne,
      (hitTest_zero_length_is_point_test segPoint { x := 13, y := 13 } rfl rfl
        (by decide) (by decide)).2.2.1]
    decide

/-- C6 as stated fails in two ways.  The zero-length segment at the origin with
`m_Size = (10,0)` misses `(3,0)`, which is at distance 3, within the half-width
`m_Size.x / 2 = 5`: the tolerance is `MIN(10,0) >> 1 = 0`.  The zero-length
segment at `(-2^31, 0)` of width 10 is hit at `(2^31 - 1, 0)`, which is
`2^32 - 1` away: the `int` difference wraps to `-1`. -/
theorem hitTest_zero_length_counterexample :
    (segPointThin.m_Start = segPointThin.m_End ∧
      segPointThin.HitTest DistanceTest { x := 3, y := 0 } = false ∧
      sqDist { x := 3, y := 0 } segPointThin.m_Start ≤ (segPointThin.m_Size.x / 2) ^ 2) ∧
    (segPointEdge.m_Start = segPointEdge.m_End ∧
      segPointEdge.HitTest DistanceTest { x := 2147483647, y := 0 } = true ∧
      ¬ sqDist { x := 2147483647, y := 0 } segPointEdge.m_Start
        ≤ (segPointEdge.m_Size.x / 2) ^ 2) := by
  decide

/-- C8: the rectangle hit-test is true exactly when `m_Start` or `m_End` is
inside the rectangle, for every `Inside`; replacing every other field of the
item leaves the result unchanged. -/
theorem hitTestRect_iff_start_or_end_inside
    (Inside : EDA_Rect → wxPoint → Bool) (P : GERBER_DRAW_ITEM) (R : EDA_Rect) :
    (P.HitTestRect Inside R = true ↔
      Inside R P.m_Start = true ∨ Inside R P.m_End = true) ∧
    (∀ (layer : Int) (shape : Gbr_Basic_Shapes) (flashed : Bool) (dcode : Int)
        (metric imageNeg layerNeg : Bool) (centre : wxPoint) (size : wxSize)
        (corners : List wxPoint) (flags timeStamp status : Int),
      ({ m_Layer := layer, m_Shape := shape, m_Flashed := flashed, m_DCode := dcode,
         m_UnitsMetric := metric, m_ImageNegative := imageNeg, m_LayerNegative := layerNeg,
         m_Start := P.m_Start, m_End := P.m_End, m_ArcCentre := centre, m_Size := size,
         m_PolyCorners := corners, m_Flags := flags, m_TimeStamp := timeStamp,
         m_Status := status } : GERBER_DRAW_ITEM).HitTestRect Inside R
        = P.HitTestRect Inside R) := by
  constructor
  · unfold GERBER_DRAW_ITEM.HitTestRect
    cases Inside R P.m_Start <;> cases Inside R P.m_End <;> simp
  · intros
    rfl

/-! ## C9, C10: the bounding box -/

theorem getBoundingBox_eq (P : GERBER_DRAW_ITEM) :
    P.GetBoundingBox =
      { m_Pos := { x := wrapInt (P.m_Start.x - Int.tdiv P.m_Size.x 2),
                   y := wrapInt (P.m_Start.y - Int.tdiv P.m_Size.y 2) }
        m_Size := { x := wrapInt (1 + wrapInt (2 * Int.tdiv P.m_Size.x 2)),
                    y := wrapInt (1 + wrapInt (2 * Int.tdiv P.m_Size.y 2)) } } :=
  rfl

/-- C9 (amended): for every item of a polygon kind with a non-empty corner
list, `GetBoundingBox` is the unit rectangle at `m_Start` inflated by
`(m_Size.x / 2, m_Size.y / 2)` on `int`, as for every other item; the corner
list does not influence it. -/
theorem getBoundingBox_polygon_ignores_corners (P : GERBER_DRAW_ITEM)
    (_hkind : P.m_Shape = GBR_POLYGON ∨ P.m_Shape = GBR_SPOT_POLY)
    (_hcorners : P.m_PolyCorners ≠ []) (corners : List wxPoint) :
    P.GetBoundingBox =
      { m_Pos := { x := wrapInt (P.m_Start.x - Int.tdiv P.m_Size.x 2),
                   y := wrapInt (P.m_Start.y - Int.tdiv P.m_Size.y 2) }
        m_Size := { x := wrapInt (1 + wrapInt (2 * Int.tdiv P.m_Size.x 2)),
                    y := wrapInt (1 + wrapInt (2 * Int.tdiv P.m_Size.y 2)) } } ∧
    ({ P with m_PolyCorners := corners }).GetBoundingBox = P.GetBoundingBox := by
  constructor
  · exact getBoundingBox_eq P
  · simp only [GERBER_DRAW_ITEM.GetBoundingBox]

/-- C9 on the triangle: its bounding box is the unit rectangle at `(0,0)`. -/
theorem getBoundingBox_polygon_ignores_corners_witness :
    polyTri.GetBoundingBox
      = { m_Pos := { x := 0, y := 0 }, m_Size := { x := 1, y := 1 } } := by
  have h := (getBoundingBox_polygon_ignores_corners polyTri (Or.inl rfl) (by decide) []).1
  rw [h]
  decide

/-- C9 as stated fails: the triangle with corners `(0,0)`, `(10,0)`, `(10,10)`
spans from `(0,0)` to `(10,10)`, and its bounding box is the unit rectangle at
`(0,0)`, which does not reach the corner `(10,10)`. -/
theorem getBoundingBox_polygon_counterexample :
    polyTri.m_Shape = GBR_POLYGON ∧
    polyExtent polyTri.m_PolyCorners = some ({ x := 0, y := 0 }, { x := 10, y := 10 }) ∧
    polyTri.GetBoundingBox = { m_Pos := { x := 0, y := 0 }, m_Size := { x := 1, y := 1 } } ∧
    polyTri.GetBoundingBox.m_Pos.x + polyTri.GetBoundingBox.m_Size.x < 10 ∧
    polyTri.GetBoundingBox.m_Pos.y + polyTri.GetBoundingBox.m_Size.y < 10 := by
  decide

/-- C10 (amended): for an item whose size is non-negative and an `int`, and
for which `m_Start - m_Size / 2` does not overflow `int`, `GetBoundingBox` is
the rectangle of position `m_Start - m_Size / 2` and of dimension
`2 * (m_Size / 2) + 1`, the unit rectangle at `m_Start` inflated by
`m_Size / 2`; its far corner `m_Pos + m_Size` is `m_Start + m_Size / 2 + 1`,
one unit past `m_Start + m_Size / 2`. -/
theorem getBoundingBox_corners (P : GERBER_DRAW_ITEM)
    (hx : 0 ≤ P.m_Size.x) (hy : 0 ≤ P.m_Size.y)
    (hsx : isInt32 P.m_Size.x) (hsy : isInt32 P.m_Size.y)
    (hpx : isInt32 (P.m_Start.x - P.m_Size.x / 2))
    (hpy : isInt32 (P.m_Start.y - P.m_Size.y / 2)) :
    P.GetBoundingBox.m_Pos.x = P.m_Start.x - P.m_Size.x / 2 ∧
    P.GetBoundingBox.m_Pos.y = P.m_Start.y - P.m_Size.y / 2 ∧
    P.GetBoundingBox.m_Size.x = 2 * (P.m_Size.x / 2) + 1 ∧
    P.GetBoundingBox.m_Size.y = 2 * (P.m_Size.y / 2) + 1 ∧
    P.GetBoundingBox.m_Pos.x + P.GetBoundingBox.m_Size.x = P.m_Start.x + P.m_Size.x / 2 + 1 ∧
    P.GetBoundingBox.m_Pos.y + P.GetBoundingBox.m_Size.y
      = P.m_Start.y + P.m_Size.y / 2 + 1 := by
  have ex : Int.tdiv P.m_Size.x 2 = P.m_Size.x / 2 := Int.tdiv_eq_ediv hx (by norm_num)
  have ey : Int.tdiv P.m_Size.y 2 = P.m_Size.y / 2 := Int.tdiv_eq_ediv hy (by norm_num)
  obtain ⟨hsx1, hsx2⟩ := hsx
  obtain ⟨hsy1, hsy2⟩ := hsy
  have wpx : wrapInt (P.m_Start.x - P.m_Size.x / 2) = P.m_Start.x - P.m_Size.x / 2 :=
    wrapInt_of_inRange _ hpx.1 hpx.2
  have wpy : wrapInt (P.m_Start.y - P.m_Size.y / 2) = P.m_Start.y - P.m_Size.y / 2 :=
    wrapInt_of_inRange _ hpy.1 hpy.2
  have wdx : wrapInt (2 * (P.m_Size.x / 2)) = 2 * (P.m_Size.x / 2) :=
    wrapInt_of_inRange _ (by omega) (by omega)
  have wdy : wrapInt (2 * (P.m_Size.y / 2)) = 2 * (P.m_Size.y / 2) :=
    wrapInt_of_inRange _ (by omega) (by omega)
  have wsx : wrapInt (1 + 2 * (P.m_Size.x / 2)) = 2 * (P.m_Size.x / 2) + 1 := by
    rw [wrapInt_of_inRange _ (by omega) (by omega)]
    omega
  have wsy : wrapInt (1 + 2 * (P.m_Size.y / 2)) = 2 * (P.m_Size.y / 2) + 1 := by
    rw [wrapInt_of_inRange _ (by omega) (by omega)]
    omega
  rw [getBoundingBox_eq, ex, ey]
  simp only [wpx, wpy, wdx, wdy, wsx, wsy]
  refine ⟨?_, ?_, ?_, ?_, ?_, ?_⟩ <;> first | trivial | rfl | omega

/-- C10 on the segment of scenario A, of size `(10,10)` at `(0,0)`: the box has
position `(-5,-5)` and dimension `(11,11)`, and its far corner is `(6,6)`. -/
theorem getBoundingBox_corners_witness :
    segA.GetBoundingBox.m_Pos.x = -5 ∧ segA.GetBoundingBox.m_Pos.y = -5 ∧
    segA.GetBoundingBox.m_Size.x = 11 ∧ segA.GetBoundingBox.m_Size.y = 11 ∧
    segA.GetBoundingBox.m_Pos.x + segA.GetBoundingBox.m_Size.x = 6 ∧
    segA.GetBoundingBox.m_Pos.y + segA.GetBoundingBox.m_Size.y = 6 :=
  getBoundingBox_corners segA (by decide) (by decide) (by decide) (by decide) (by decide)
    (by decide)

/-- C10 as stated fails in two ways.  The box of the segment of scenario A has
its far corner `m_Pos + m_Size` at `(6,6)`, not at `m_Start + m_Size / 2 = (5,5)`.
With `m_Start.x = -2^31` and size `(10,10)` the subtraction of `5` overflows
`int` and the box is at `m_Pos.x = 2147483643`, not at `-2147483653`. -/
theorem far_corner_counterexample :
    (segA.GetBoundingBox.m_Pos.x + segA.GetBoundingBox.m_Size.x = 6 ∧
      segA.GetBoundingBox.m_Pos.y + segA.GetBoundingBox.m_Size.y = 6 ∧
      segA.m_Start.x + segA.m_Size.x / 2 = 5 ∧ segA.m_Start.y + segA.m_Size.y / 2 = 5) ∧
    (segEdge.GetBoundingBox.m_Pos.x = 2147483643 ∧
      segEdge.m_Start.x - segEdge.m_Size.x / 2 = -2147483653) := by
  decide

/-! ## C11, C12: moving an item -/

/-- The loop over the corners adds the vector to each corner, in place. -/
theorem movePolyCorners_append (v : wxPoint) (done todo : List wxPoint) :
    movePolyCorners v todo.length done.length (done ++ todo)
      = done ++ todo.map (fun corner => corner + v) := by
  induction todo generalizing done with
  | nil => simp [movePolyCorners]
  | cons c rest ih =>
    have hget : (done ++ c :: rest)[done.length]? = some c := by
      rw [List.getElem?_append_right (le_refl _)]
      simp
    have hset : (done ++ c :: rest).set done.length (c + v) = (done ++ [c + v]) ++ rest := by
      rw [List.set_append_right _ _ (le_refl _)]
      simp
    have hlen : done.length + 1 = (done ++ [c + v]).length := by simp
    simp only [List.length_cons, movePolyCorners, hget, hset]
    rw [hlen, ih (done ++ [c + v])]
    simp

theorem movePolyCorners_eq_map (v : wxPoint) (corners : List wxPoint) :
    movePolyCorners v corners.length 0 corners = corners.map (fun corner => corner + v) := by
  have h := movePolyCorners_append v [] corners
  simpa using h

/-- C11: without integer overflow, that is when the positions of the box
before and after the move, `m_Start - m_Size / 2` and `m_Start + v - m_Size / 2`,
fit in `int`, the bounding box of the moved item is the bounding box of the
item translated by the vector: the same width and height, the origin shifted
by the vector. -/
theorem getBoundingBox_move (P : GERBER_DRAW_ITEM) (v : wxPoint)
    (hbx : isInt32 (P.m_Start.x - Int.tdiv P.m_Size.x 2))
    (hby : isInt32 (P.m_Start.y - Int.tdiv P.m_Size.y 2))
    (hmx : isInt32 (P.m_Start.x + v.x - Int.tdiv P.m_Size.x 2))
    (hmy : isInt32 (P.m_Start.y + v.y - Int.tdiv P.m_Size.y 2)) :
    (P.Move v).GetBoundingBox = P.GetBoundingBox.translate v ∧
    (P.Move v).GetBoundingBox.m_Size = P.GetBoundingBox.m_Size ∧
    (P.Move v).GetBoundingBox.m_Pos.x = P.GetBoundingBox.m_Pos.x + v.x ∧
    (P.Move v).GetBoundingBox.m_Pos.y = P.GetBoundingBox.m_Pos.y + v.y := by
  have hstart : (P.Move v).m_Start
      = { x := wrapInt (P.m_Start.x + v.x), y := wrapInt (P.m_Start.y + v.y) } := rfl
  have hsize : (P.Move v).m_Size = P.m_Size := rfl
  have hposx : wrapInt (wrapInt (P.m_Start.x + v.x) - Int.tdiv P.m_Size.x 2)
      = wrapInt (P.m_Start.x - Int.tdiv P.m_Size.x 2) + v.x := by
    obtain ⟨h1, h2⟩ := hbx
    obtain ⟨h3, h4⟩ := hmx
    unfold wrapInt
    omega
  have hposy : wrapInt (wrapInt (P.m_Start.y + v.y) - Int.tdiv P.m_Size.y 2)
      = wrapInt (P.m_Start.y - Int.tdiv P.m_Size.y 2) + v.y := by
    obtain ⟨h1, h2⟩ := hby
    obtain ⟨h3, h4⟩ := hmy
    unfold wrapInt
    omega
  rw [getBoundingBox_eq (P.Move v), getBoundingBox_eq P, hstart, hsize]
  simp only [hposx, hposy]
  refine ⟨?_, ?_, ?_, ?_⟩ <;> trivial

/-- C11 on the segment of scenario A moved by `(7,-3)`: the box of dimension
`(11,11)` goes from position `(-5,-5)` to position `(2,-8)`. -/
theorem getBoundingBox_move_witness :
    (segA.Move { x := 7, y := -3 }).GetBoundingBox
      = segA.GetBoundingBox.translate { x := 7, y := -3 } ∧
    segA.GetBoundingBox = { m_Pos := { x := -5, y := -5 }, m_Size := { x := 11, y := 11 } } ∧
    (segA.Move { x := 7, y := -3 }).GetBoundingBox
      = { m_Pos := { x := 2, y := -8 }, m_Size := { x := 11, y := 11 } } :=
  ⟨(getBoundingBox_move segA { x := 7, y := -3 } (by decide) (by decide) (by decide)
      (by decide)).1, by decide, by decide⟩

/-- Why C11 asks for the box positions to fit in `int`: the segment at the left
edge of the range is moved by `(10,0)` without overflow of `m_Start + v`, but
its box, whose position has wrapped to `2147483643`, lands on `-2147483643`. -/
theorem moved_box_at_edge :
    isInt32 (segEdge.m_Start.x + 10) ∧
    ¬ isInt32 (segEdge.m_Start.x - Int.tdiv segEdge.m_Size.x 2) ∧
    segEdge.GetBoundingBox.m_Pos.x = 2147483643 ∧
    (segEdge.Move { x := 10, y := 0 }).GetBoundingBox.m_Pos.x = -2147483643 := by
  decide

/-- C12: `Move` adds the vector (the `wxPoint` sum on `int`) to `m_Start`, to
`m_End`, to `m_ArcCentre` and to every corner of `m_PolyCorners`, keeping
their number and order, and leaves every other member unchanged. -/
theorem move_adds_vector (P : GERBER_DRAW_ITEM) (v : wxPoint) :
    (P.Move v).m_Start = P.m_Start + v ∧
    (P.Move v).m_End = P.m_End + v ∧
    (P.Move v).m_ArcCentre = P.m_ArcCentre + v ∧
    (P.Move v).m_PolyCorners = P.m_PolyCorners.map (fun corner => corner + v) ∧
    (P.Move v).m_PolyCorners.length = P.m_PolyCorners.length ∧
    (∀ (i : Nat) (corner : wxPoint), P.m_PolyCorners[i]? = some corner →
      (P.Move v).m_PolyCorners[i]? = some (corner + v)) ∧
    (P.Move v).m_Size = P.m_Size ∧
    (P.Move v).m_Layer = P.m_Layer ∧
    (P.Move v).m_Shape = P.m_Shape ∧
    (P.Move v).m_Flashed = P.m_Flashed ∧
    (P.Move v).m_DCode = P.m_DCode ∧
    (P.Move v).m_ImageNegative = P.m_ImageNegative ∧
    (P.Move v).m_LayerNegative = P.m_LayerNegative ∧
    (P.Move v).m_UnitsMetric = P.m_UnitsMetric ∧
    (P.Move v).m_Flags = P.m_Flags ∧
    (P.Move v).m_TimeStamp = P.m_TimeStamp ∧
    (P.Move v).m_Status = P.m_Status := by
  have hcorners : (P.Move v).m_PolyCorners = P.m_PolyCorners.map (fun corner => corner + v) :=
    movePolyCorners_eq_map v P.m_PolyCorners
  refine ⟨rfl, rfl, rfl, hcorners, ?_, ?_, rfl, rfl, rfl, rfl, rfl, rfl, rfl, rfl, rfl, rfl, rfl⟩
  · rw [hcorners, List.length_map]
  · intro i corner hget
    rw [hcorners, List.getElem?_map, hget]
    rfl

/-! ## C13: copying an item -/

/-- What the copy constructor does: every member it assigns is that of the
source, and `m_ArcCentre`, which it does not assign, is `(0,0)`. -/
theorem copy_members (I : GERBER_DRAW_ITEM) :
    I.Copy.m_Start = I.m_Start ∧ I.Copy.m_End = I.m_End ∧ I.Copy.m_Size = I.m_Size ∧
    I.Copy.m_Layer = I.m_Layer ∧ I.Copy.m_Shape = I.m_Shape ∧
    I.Copy.m_Flashed = I.m_Flashed ∧ I.Copy.m_DCode = I.m_DCode ∧
    I.Copy.m_PolyCorners = I.m_PolyCorners ∧ I.Copy.m_UnitsMetric = I.m_UnitsMetric ∧
    I.Copy.m_ImageNegative = I.m_ImageNegative ∧
    I.Copy.m_LayerNegative = I.m_LayerNegative ∧
    I.Copy.m_Flags = I.m_Flags ∧ I.Copy.m_TimeStamp = I.m_TimeStamp ∧
    I.Copy.m_Status = I.m_Status ∧
    I.Copy.m_ArcCentre = { x := 0, y := 0 } :=
  ⟨rfl, rfl, rfl, rfl, rfl, rfl, rfl, rfl, rfl, rfl, rfl, rfl, rfl, rfl, rfl⟩

/-- C13 at an arc with centre `(25,-25)`: the copy agrees with the arc on start,
end, size, layer, shape, flashed flag, D-code, corners, units flag and negative
flags, but its arc centre is `(0,0)`, not `(25,-25)`; moved by `(1,1)`, the
copy has its centre at `(1,1)` where the moved arc has `(26,-24)`. -/
theorem copy_arc_loses_centre :
    arcItem.m_ArcCentre = { x := 25, y := -25 } ∧
    arcItem.Copy.m_ArcCentre = { x := 0, y := 0 } ∧
    arcItem.Copy.m_ArcCentre ≠ arcItem.m_ArcCentre ∧
    arcItem.Copy ≠ arcItem ∧
    { arcItem.Copy with m_ArcCentre := arcItem.m_ArcCentre } = arcItem ∧
    (arcItem.Move { x := 1, y := 1 }).m_ArcCentre = { x := 26, y := -24 } ∧
    (arcItem.Copy.Move { x := 1, y := 1 }).m_ArcCentre = { x := 1, y := 1 } := by
  decide
